import Mathlib

set_option autoImplicit false

namespace Xlegacy

/-!
Shallow embedding of `src/bot.js` (King-MD Session Bot), restricted to the
per-chat pairing-session orchestrator: `startPairing`, the
`connection.update` event handler, and the `/cancel` command handler.

Modelling conventions:
* The global `activePairings` JS `Map` becomes a function `Nat → Option Session`
  (chat ids are opaque; we use `Nat`).
* The filesystem is the list of existing paths; `fs.rmSync(p, {recursive})`
  removes `p` and every path under `p ++ "/"`.
* External adapters (Telegram sends, the Baileys socket, the Mega upload,
  `requestPairingCode`) are embedded as recorded messages/effects, with their
  outcomes passed in as explicit parameters (`registered`, `uploadRes`,
  `codeResult`, `sockOk`).
* `Date` timestamps are naturals in milliseconds.  The JS test
  `(now - sentAt) / 1000 > 30` is exact float arithmetic on integer
  millisecond differences, hence equivalent to `now - sentAt > 30000`
  (and a negative JS difference fails the test just as truncated `Nat`
  subtraction does).
-/

/-- Pairing method (`method` argument of `startPairing`: `'code' | 'qr'`). -/
inductive Method
  | code
  | qr
deriving DecidableEq

/-- Kind tag of `lastPairingInfoSent.type`: `'qr' | 'code' | 'session_id'`. -/
inductive NotifKind
  | qr
  | code
  | sessionId
deriving DecidableEq

/-- The `lastPairingInfoSent` record `{ type, value, timestamp }`. -/
structure NotifRec where
  kind : NotifKind
  value : String
  sentAt : Nat
deriving DecidableEq

/-- One entry of the `activePairings` map:
`{ sock, sessionPath, isCancelling, method, lastPairingInfoSent }`.
The `sock` handle itself carries no orchestrator state we need (its
`authState.creds.registered` flag is read per event and is passed to the
handler as an input), so it is omitted from the record. -/
structure Session where
  sessionPath : String
  isCancelling : Bool
  method : Method
  lastPairingInfoSent : Option NotifRec
deriving DecidableEq

/-- The `activePairings` map, chat id to session. -/
def Store : Type := Nat → Option Session

/-- `activePairings.get(chatId)`. -/
def storeGet (s : Store) (c : Nat) : Option Session := s c

/-- `activePairings.set(chatId, v)`. -/
def storeSet (s : Store) (c : Nat) (v : Session) : Store :=
  fun x => if x = c then some v else s x

/-- `activePairings.delete(chatId)`. -/
def storeDel (s : Store) (c : Nat) : Store :=
  fun x => if x = c then none else s x

/-- The empty map. -/
def storeEmpty : Store := fun _ => none

/-- `fs.existsSync(p)` over the list of existing paths. -/
def fsExists : List String → String → Bool
  | [], _ => false
  | q :: t, p => q == p || fsExists t p

/-- Does the first character list occur as a prefix of the second? -/
def listStartsWith : List Char → List Char → Bool
  | [], _ => true
  | _ :: _, [] => false
  | a :: as, b :: bs => a == b && listStartsWith as bs

/-- `removeFile(p)` = `fs.rmSync(p, { recursive: true, force: true })`:
deletes `p` and everything below it. -/
def removeFileFS : List String → String → List String
  | [], _ => []
  | q :: t, p =>
    if q == p || listStartsWith (p ++ "/").data q.data then removeFileFS t p
    else q :: removeFileFS t p

/-- Disconnect error value as the handler sees it: the Boom status code that
`new Boom(lastDisconnect?.error).output.statusCode` yields for this error
(a non-Boom error defaults to 500), and whether
`Object.keys(error).length === 0`. -/
structure DErr where
  statusCode : Nat
  isEmptyObj : Bool
deriving DecidableEq

/-- Baileys `DisconnectReason` constants used by the source. -/
def DisconnectReason.loggedOut : Nat := 401

/-- Baileys `DisconnectReason.badSession`. -/
def DisconnectReason.badSession : Nat := 500

/-- `new Boom(lastDisconnect?.error)?.output?.statusCode`: an absent error
wraps to Boom's default status 500. -/
def boomStatus : Option DErr → Nat
  | none => 500
  | some e => e.statusCode

/-- `Object.keys(lastDisconnect?.error || {}).length === 0`. -/
def discErrIsEmpty : Option DErr → Bool
  | none => true
  | some e => e.isEmptyObj

/-- `isPermanentDisconnect` from the close branch:
`statusCode === DisconnectReason.loggedOut ||
 (statusCode === DisconnectReason.badSession && !isErrorEmpty) ||
 statusCode === 401`. -/
def isPermanentDisconnect (e : Option DErr) : Bool :=
  boomStatus e == DisconnectReason.loggedOut
    || (boomStatus e == DisconnectReason.badSession && !(discErrIsEmpty e))
    || boomStatus e == 401

/-- Connection status strings of a `connection.update` payload. -/
inductive ConnStatus
  | connecting
  | opened
  | closed
deriving DecidableEq

/-- A valid `connection.update` payload `{ connection, lastDisconnect, qr }`
(`lastDisconnect?.error` is collapsed into one optional error value). -/
structure ConnEvent where
  connection : Option ConnStatus
  discErr : Option DErr
  qr : Option String
deriving DecidableEq

/-- Telegram sends performed by the orchestrator, tagged by which source
message they are; payload-carrying where a claim inspects the payload. -/
inductive Msg
  | alreadyActive
  | connectingMsg
  | connected
  | credsMissing
  | sessionIdMsg (sid : String)
  | uploadFailed
  | cancelledByClose
  | permanentClosed
  | transientClosed
  | reconnectExpired
  | reconnectContinue
  | qrPrompt
  | qrPhoto (payload : String)
  | qrFooter
  | requestingCode
  | pairingCode (c : String)
  | codeFailed
  | numRequired
  | generatingQr
  | unexpectedError
  | cancelAttempting
  | noActiveSession
  | cancelSuccess
deriving DecidableEq

/-- Adapter calls performed by the orchestrator. -/
inductive Eff
  | connOpen
  | publishCreds
  | logoutCall
  | requestCode (digits : String)
deriving DecidableEq

/-- Orchestrator state: the `activePairings` map plus the filesystem. -/
structure BotState where
  store : Store
  files : List String

/-- The literal Mega URL marker the source splits on. -/
def megaLinkBase : String := "https://mega.nz/file/"

/-- Remainder of the list after the first occurrence of `sep`, if any
(`none` when `sep` does not occur). -/
def findSplitTail (sep : List Char) : List Char → Option (List Char)
  | [] => none
  | c :: cs =>
    if listStartsWith sep (c :: cs) then some (List.drop sep.length (c :: cs))
    else findSplitTail sep cs

/-- Characters before the next occurrence of `sep`. -/
def takeUntilSep (sep : List Char) : List Char → List Char
  | [] => []
  | c :: cs =>
    if listStartsWith sep (c :: cs) then []
    else c :: takeUntilSep sep cs

/-- JS `s.includes(sub)` for non-empty `sub`. -/
def jsIncludes (s sub : String) : Bool := (findSplitTail sub.data s.data).isSome

/-- JS `s.split(sub)[1]` for non-empty `sub`: the chunk between the first and
second occurrence of `sub`. -/
def jsSplitSecond (s sub : String) : String :=
  match findSplitTail sub.data s.data with
  | some rest => String.mk (takeUntilSep sub.data rest)
  | none => ""

/-- Session-id derivation from the upload result:
`megaUrl.includes(base) ? 'King~' + megaUrl.split(base)[1]
                        : 'Error: Invalid Mega URL after upload'`. -/
def megaSid (url : String) : String :=
  if jsIncludes url megaLinkBase then "King~" ++ jsSplitSecond url megaLinkBase
  else "Error: Invalid Mega URL after upload"

/-- `lastPairingInfoSent && lastPairingInfoSent.type === 'session_id'`. -/
def notifIsSessionId : Option NotifRec → Bool
  | some r => r.kind == NotifKind.sessionId
  | none => false

/-- JS `String.prototype.trim`. -/
def jsTrim (s : String) : String :=
  String.mk (((s.data.dropWhile Char.isWhitespace).reverse.dropWhile
    Char.isWhitespace).reverse)

/-- JS `num.replace(/[^0-9]/g, '')`. -/
def stripNonDigits (s : String) : String := String.mk (s.data.filter Char.isDigit)

/-- Debounce condition of the qr branch:
`!lastPairingInfoSent ||
 (lastPairingInfoSent.type === 'qr' && lastPairingInfoSent.value !== qr) ||
 timeSinceLastSent > 30` (with `timeSinceLastSent = Infinity` when no record
exists, and seconds measured as ms/1000). -/
def qrDebounceSend (last : Option NotifRec) (q : String) (now : Nat) : Bool :=
  match last with
  | none => true
  | some r => (r.kind == NotifKind.qr && r.value != q) || now - r.sentAt > 30000

/-- Tail of the handler (reached when `connection` is `"connecting"` or not one
of the three recognized statuses): the qr-artifact branch, lines 349-363. -/
def qrTail (st : BotState) (c : Nat) (cp : Session) (registered : Bool)
    (qr : Option String) (now : Nat) (msgs0 : List Msg) :
    BotState × List Msg × List Eff :=
  match qr with
  | some q =>
    if cp.method == Method.qr && !registered then
      if qrDebounceSend cp.lastPairingInfoSent q now then
        (⟨storeSet st.store c
            { cp with lastPairingInfoSent := some ⟨NotifKind.qr, q, now⟩ },
          st.files⟩,
         msgs0 ++ [Msg.qrPrompt, Msg.qrPhoto q, Msg.qrFooter], [])
      else (st, msgs0, [])
    else (st, msgs0, [])
  | none => (st, msgs0, [])

/-- `open` branch of the handler, lines 236-315. -/
def openBranch (st : BotState) (c : Nat) (cp : Session) (p : String)
    (registered : Bool) (uploadRes : Except String String) (now : Nat) :
    BotState × List Msg × List Eff :=
  if registered && cp.lastPairingInfoSent.isNone then
    -- upload-and-finalize sub-flow, lines 240-295
    if !(fsExists st.files (p ++ "/creds.json")) then
      (⟨storeDel st.store c, removeFileFS st.files p⟩,
       [Msg.connected, Msg.credsMissing], [Eff.logoutCall])
    else
      match uploadRes with
      | Except.ok megaUrl =>
        let sid := megaSid megaUrl
        let cp1 : Session :=
          { cp with lastPairingInfoSent := some ⟨NotifKind.sessionId, sid, now⟩ }
        -- finally block: logout, removeFile(sessionPath), delete(chatId)
        let st1 : BotState :=
          ⟨storeDel (storeSet st.store c cp1) c, removeFileFS st.files p⟩
        -- stale-reconnect check (line 309) still sees the local record cp1
        if registered && notifIsSessionId cp1.lastPairingInfoSent then
          (⟨storeDel st1.store c, removeFileFS st1.files p⟩,
           [Msg.connected, Msg.sessionIdMsg sid],
           [Eff.publishCreds, Eff.logoutCall, Eff.logoutCall])
        else
          (st1, [Msg.connected, Msg.sessionIdMsg sid],
           [Eff.publishCreds, Eff.logoutCall])
      | Except.error _ =>
        -- upload failed: notify, then the same finally block cleans up;
        -- the line-309 check is skipped (lastPairingInfoSent stayed none)
        (⟨storeDel st.store c, removeFileFS st.files p⟩,
         [Msg.connected, Msg.uploadFailed], [Eff.publishCreds, Eff.logoutCall])
  else if !registered && cp.lastPairingInfoSent.isSome then
    -- ambiguous-reconnect branch, lines 296-307
    match cp.lastPairingInfoSent with
    | some r =>
      if now - r.sentAt > 30000 then
        (⟨storeSet st.store c { cp with lastPairingInfoSent := none }, st.files⟩,
         [Msg.connected, Msg.reconnectExpired], [])
      else (st, [Msg.connected, Msg.reconnectContinue], [])
    | none => (st, [Msg.connected], [])
  else
    -- stale-reconnect check, lines 309-314
    if registered && notifIsSessionId cp.lastPairingInfoSent then
      (⟨storeDel st.store c, removeFileFS st.files p⟩,
       [Msg.connected], [Eff.logoutCall])
    else (st, [Msg.connected], [])

/-- `close` branch of the handler, lines 316-346. -/
def closeBranch (st : BotState) (c : Nat) (cp : Session) (p : String)
    (discErr : Option DErr) : BotState × List Msg × List Eff :=
  if cp.isCancelling then
    (⟨storeDel st.store c, removeFileFS st.files p⟩, [Msg.cancelledByClose], [])
  else if isPermanentDisconnect discErr then
    (⟨storeDel st.store c, removeFileFS st.files p⟩, [Msg.permanentClosed], [])
  else (st, [Msg.transientClosed], [])

/-- The `connection.update` handler registered by `startPairing` for chat `c`
with closure path `p` (lines 208-364).  `registered` is the value of
`sock.authState.creds.registered` at event time; `uploadRes` the outcome
`uploadCredsToMega` would produce if called; `now` the current time in ms. -/
def connectionUpdate (st : BotState) (c : Nat) (p : String) (registered : Bool)
    (ev : ConnEvent) (uploadRes : Except String String) (now : Nat) :
    BotState × List Msg × List Eff :=
  match storeGet st.store c with
  | none => (st, [], [])
  | some cp =>
    if cp.isCancelling then (st, [], [])
    else
      match ev.connection with
      | some ConnStatus.connecting =>
        qrTail st c cp registered ev.qr now [Msg.connectingMsg]
      | some ConnStatus.opened => openBranch st c cp p registered uploadRes now
      | some ConnStatus.closed => closeBranch st c cp p ev.discErr
      | none => qrTail st c cp registered ev.qr now []

/-- Session-path selection of `startPairing`, lines 146-165: a fresh attempt
removes and uses the fresh random path; a reconnect reuses the stored one,
falling back to a cleaned fresh path when no entry exists. -/
def spSelectPath (st : BotState) (c : Nat) (isReconnect : Bool) (p0 : String) :
    List String × String :=
  if !isReconnect then (removeFileFS st.files p0, p0)
  else
    match storeGet st.store c with
    | some e => (st.files, e.sessionPath)
    | none => (removeFileFS st.files p0, p0)

/-- Session registration of `startPairing`, lines 187-199. -/
def spRegister (s : Store) (c : Nat) (isReconnect : Bool) (p : String)
    (method : Method) : Store :=
  if !isReconnect then storeSet s c ⟨p, false, method, none⟩
  else
    match storeGet s c with
    | some e => storeSet s c e
    | none => storeSet s c ⟨p, false, method, none⟩

/-- `startPairing(chatId, num, method, isReconnect)`, lines 140-412.
`freshId` is the generated uuid; `sockOk` whether `makeWASocket` succeeds
(false throws into the catch block); `registered` the value of
`sock.authState.creds.registered` after creation; `codeResult` the outcome of
`sock.requestPairingCode` (`Except.error` = it threw, `Except.ok none` = it
returned a falsy code). -/
def startPairing (st : BotState) (c : Nat) (num : Option String)
    (method : Method) (isReconnect : Bool) (freshId : String) (sockOk : Bool)
    (registered : Bool) (codeResult : Except String (Option String))
    (now : Nat) : BotState × List Msg × List Eff :=
  if (storeGet st.store c).isSome && !isReconnect then
    (st, [Msg.alreadyActive], [])
  else
    let p0 := "./temp_sessions/" ++ freshId
    let sel := spSelectPath st c isReconnect p0
    let files1 := sel.1
    let p := sel.2
    if !sockOk then
      -- makeWASocket threw: catch block, lines 404-411
      (⟨storeDel st.store c, removeFileFS files1 p⟩, [Msg.unexpectedError], [])
    else
      let store1 := spRegister st.store c isReconnect p method
      match storeGet store1 c with
      | none =>
        -- line 202-203 would throw; the catch block cleans up
        (⟨storeDel store1 c, removeFileFS files1 p⟩, [Msg.unexpectedError],
         [Eff.connOpen])
      | some entry =>
        if !registered then
          match entry.method with
          | Method.code =>
            if (match num with
                | some s => jsTrim s != ""
                | none => false) then
              let digits := stripNonDigits (num.getD "")
              match codeResult with
              | Except.ok (some code) =>
                (⟨storeSet store1 c
                    { entry with
                      lastPairingInfoSent := some ⟨NotifKind.code, code, now⟩ },
                  files1⟩,
                 [Msg.requestingCode, Msg.pairingCode code],
                 [Eff.connOpen, Eff.requestCode digits])
              | Except.ok none =>
                (⟨storeDel store1 c, removeFileFS files1 p⟩,
                 [Msg.requestingCode, Msg.codeFailed],
                 [Eff.connOpen, Eff.requestCode digits, Eff.logoutCall])
              | Except.error _ =>
                -- requestPairingCode threw: catch block
                (⟨storeDel store1 c, removeFileFS files1 p⟩,
                 [Msg.requestingCode, Msg.unexpectedError],
                 [Eff.connOpen, Eff.requestCode digits])
            else
              (⟨storeDel store1 c, removeFileFS files1 p⟩,
               [Msg.numRequired], [Eff.connOpen, Eff.logoutCall])
          | Method.qr => (⟨store1, files1⟩, [Msg.generatingQr], [Eff.connOpen])
        else (⟨store1, files1⟩, [], [Eff.connOpen])

/-- The flag mutation `activePairing.isCancelling = true` of the `/cancel`
handler (line 493). -/
def cancelMark (st : BotState) (c : Nat) (ap : Session) : BotState :=
  ⟨storeSet st.store c { ap with isCancelling := true }, st.files⟩

/-- The `/cancel` command handler, lines 487-515.  `logoutFails` says whether
the best-effort `logout`/`close` threw; such errors are logged as warnings and
swallowed. -/
def cancelCmd (st : BotState) (c : Nat) (logoutFails : Bool) :
    BotState × List Msg × List String :=
  match storeGet st.store c with
  | none => (st, [Msg.noActiveSession], [])
  | some ap =>
    let st1 := cancelMark st c ap
    let warns := if logoutFails then ["warn: logout error"] else []
    (⟨storeDel st1.store c, removeFileFS st1.files ap.sessionPath⟩,
     [Msg.cancelAttempting, Msg.cancelSuccess], warns)

/-- Number of `publishCreds` effects (calls of `uploadCredsToMega`). -/
def countPublish (effs : List Eff) : Nat :=
  (effs.filter (fun e => e == Eff.publishCreds)).length

/-- Process a list of `connection.update` events for one chat, counting the
publish calls.  Each list element carries the adapter inputs of that event:
`(registered, payload, upload outcome, time)`. -/
def runEvents (c : Nat) (p : String) :
    BotState → List (Bool × ConnEvent × Except String String × Nat) →
    BotState × Nat
  | st, [] => (st, 0)
  | st, (reg, ev, res, t) :: rest =>
    let r := connectionUpdate st c p reg ev res t
    let rec2 := runEvents c p r.1 rest
    (rec2.1, countPublish r.2.2 + rec2.2)

/-- Modelled from the spec: the close-classification exactly as claim C6 words
it — permanent iff the disconnect reason carried by the error is an explicit
logout, a bad session, or unauthorized (401); an absent error is one of the
"all other reasons".  This definition follows the spec's words and exists only
to be compared against `isPermanentDisconnect`, which is transcribed from the
source. -/
def specCloseIsPermanent (e : Option DErr) : Bool :=
  match e with
  | none => false
  | some d =>
    d.statusCode == DisconnectReason.loggedOut
      || d.statusCode == DisconnectReason.badSession
      || d.statusCode == 401

/-! Concrete fixtures used by witnesses and counterexamples. -/

/-- A non-cancelling qr session at path `./temp_sessions/a`. -/
def sessA : Session := ⟨"./temp_sessions/a", false, Method.qr, none⟩

/-- A state whose store maps chat 1 to `sessA`. -/
def stA : BotState := ⟨storeSet storeEmpty 1 sessA, ["./temp_sessions/a"]⟩

/-- A state with an empty store and no files. -/
def stEmptyB : BotState := ⟨storeEmpty, []⟩

/-- A cancelling session (isCancelling = true). -/
def sessC3 : Session := ⟨"./temp_sessions/x", true, Method.qr, none⟩

/-- A state whose store maps chat 1 to the cancelling session `sessC3`. -/
def stC3 : BotState := ⟨storeSet storeEmpty 1 sessC3, ["./temp_sessions/x"]⟩

/-- A close event whose error is a logged-out Boom (status 401, non-empty). -/
def evClose401 : ConnEvent := ⟨some ConnStatus.closed, some ⟨401, false⟩, none⟩

/-- An open event with no disconnect error and no qr payload. -/
def evOpen : ConnEvent := ⟨some ConnStatus.opened, none, none⟩

/-- A non-cancelling code session that already recorded a pairing-code
notification (a non-success notification). -/
def sessU : Session :=
  ⟨"./temp_sessions/u", false, Method.code, some ⟨NotifKind.code, "12345678", 0⟩⟩

/-- A state holding `sessU` for chat 1, with its credential file on disk. -/
def stU : BotState :=
  ⟨storeSet storeEmpty 1 sessU,
   ["./temp_sessions/u", "./temp_sessions/u/creds.json"]⟩

/-- A fresh non-cancelling qr session with no notification recorded. -/
def sessW : Session := ⟨"./temp_sessions/w", false, Method.qr, none⟩

/-- A state holding `sessW` for chat 1, with its credential file on disk. -/
def stW : BotState :=
  ⟨storeSet storeEmpty 1 sessW,
   ["./temp_sessions/w", "./temp_sessions/w/creds.json"]⟩

/-- A qr session that recorded artifact `"qr-one"` at time 0. -/
def sessQ : Session :=
  ⟨"./temp_sessions/q", false, Method.qr, some ⟨NotifKind.qr, "qr-one", 0⟩⟩

/-- A state holding `sessQ` for chat 1. -/
def stQ : BotState := ⟨storeSet storeEmpty 1 sessQ, ["./temp_sessions/q"]⟩

theorem storeGet_storeSet_self (s : Store) (c : Nat) (v : Session) :
    storeGet (storeSet s c v) c = some v := by
  simp [storeGet, storeSet]

theorem storeGet_storeDel_self (s : Store) (c : Nat) :
    storeGet (storeDel s c) c = none := by
  simp [storeGet, storeDel]

theorem fsExists_removeFileFS_self (fs : List String) (p : String) :
    fsExists (removeFileFS fs p) p = false := by
  induction fs with
  | nil => rfl
  | cons q t ih =>
    unfold removeFileFS
    cases hb : (q == p || listStartsWith (p ++ "/").data q.data) with
    | true => simpa using ih
    | false =>
      have hqp : (q == p) = false := by
        cases hqp2 : (q == p)
        · rfl
        · rw [hqp2] at hb; simp at hb
      simp [fsExists, hqp, ih]

theorem connectionUpdate_no_entry (st : BotState) (c : Nat) (p : String)
    (reg : Bool) (ev : ConnEvent) (res : Except String String) (now : Nat)
    (h : storeGet st.store c = none) :
    connectionUpdate st c p reg ev res now = (st, [], []) := by
  unfold connectionUpdate
  rw [h]

theorem countPublish_pos_of_mem {effs : List Eff}
    (h : Eff.publishCreds ∈ effs) : 1 ≤ countPublish effs := by
  unfold countPublish
  have hm : Eff.publishCreds ∈ effs.filter (fun e => e == Eff.publishCreds) :=
    List.mem_filter.mpr ⟨h, by simp⟩
  exact List.length_pos.mpr (List.ne_nil_of_mem hm)

theorem qrTail_effs (st : BotState) (c : Nat) (cp : Session) (reg : Bool)
    (qr : Option String) (now : Nat) (msgs0 : List Msg) :
    (qrTail st c cp reg qr now msgs0).2.2 = [] := by
  unfold qrTail
  split
  · split
    · split <;> rfl
    · rfl
  · rfl

theorem closeBranch_publish (st : BotState) (c : Nat) (cp : Session)
    (p : String) (e : Option DErr) :
    countPublish (closeBranch st c cp p e).2.2 = 0 := by
  unfold closeBranch
  split
  · rfl
  · split <;> rfl

theorem openBranch_publish (st : BotState) (c : Nat) (cp : Session)
    (p : String) (reg : Bool) (res : Except String String) (now : Nat) :
    countPublish (openBranch st c cp p reg res now).2.2 ≤ 1
    ∧ (1 ≤ countPublish (openBranch st c cp p reg res now).2.2 →
        storeGet (openBranch st c cp p reg res now).1.store c = none) := by
  unfold openBranch
  split
  · split
    · simp [countPublish, storeGet_storeDel_self]
    · rcases res with e | url
      · simp [countPublish, storeGet_storeDel_self]
      · simp only []
        split
        · simp [countPublish, storeGet_storeDel_self]
        · simp [countPublish, storeGet_storeDel_self]
  · split
    · split
      · split <;> simp [countPublish]
      · simp [countPublish]
    · split <;> simp [countPublish]

theorem pubStepAux (r : BotState × List Msg × List Eff) (c : Nat)
    (h : countPublish r.2.2 = 0) :
    countPublish r.2.2 ≤ 1
    ∧ (1 ≤ countPublish r.2.2 → storeGet r.1.store c = none) := by
  rw [h]
  simp

theorem connectionUpdate_publish_step (st : BotState) (c : Nat) (p : String)
    (reg : Bool) (ev : ConnEvent) (res : Except String String) (now : Nat) :
    countPublish (connectionUpdate st c p reg ev res now).2.2 ≤ 1
    ∧ (1 ≤ countPublish (connectionUpdate st c p reg ev res now).2.2 →
        storeGet (connectionUpdate st c p reg ev res now).1.store c = none) := by
  obtain ⟨conn, derr, qrp⟩ := ev
  unfold connectionUpdate
  rcases hget : storeGet st.store c with _ | cp
  · simp [countPublish]
  · cases hb : cp.isCancelling
    · simp only [hb, Bool.false_eq_true, if_false]
      rcases conn with _ | s
      · exact pubStepAux _ c (by rw [qrTail_effs]; rfl)
      · cases s
        · exact pubStepAux _ c (by rw [qrTail_effs]; rfl)
        · exact openBranch_publish st c cp p reg res now
        · exact pubStepAux _ c (closeBranch_publish st c cp p derr)
    · simp [hb, countPublish]

theorem runEvents_absent (c : Nat) (p : String)
    (evs : List (Bool × ConnEvent × Except String String × Nat)) :
    ∀ st : BotState, storeGet st.store c = none →
      (runEvents c p st evs).1 = st ∧ (runEvents c p st evs).2 = 0 := by
  induction evs with
  | nil => intro st _; exact ⟨rfl, rfl⟩
  | cons e rest ih =>
    intro st h
    obtain ⟨reg, ev, res, t⟩ := e
    have hstep := connectionUpdate_no_entry st c p reg ev res t h
    have hrest := ih st h
    simp [runEvents, hstep, countPublish, hrest.1, hrest.2]

theorem runEvents_publish_le_one (c : Nat) (p : String)
    (evs : List (Bool × ConnEvent × Except String String × Nat)) :
    ∀ st : BotState, (runEvents c p st evs).2 ≤ 1 := by
  induction evs with
  | nil => intro st; simp [runEvents]
  | cons e rest ih =>
    intro st
    obtain ⟨reg, ev, res, t⟩ := e
    have hstep := connectionUpdate_publish_step st c p reg ev res t
    by_cases h0 : countPublish (connectionUpdate st c p reg ev res t).2.2 = 0
    · have := ih (connectionUpdate st c p reg ev res t).1
      simp [runEvents, h0]
      omega
    · have h1 : 1 ≤ countPublish (connectionUpdate st c p reg ev res t).2.2 :=
        Nat.one_le_iff_ne_zero.mpr h0
      have hnone := hstep.2 h1
      have habs := runEvents_absent c p rest
        (connectionUpdate st c p reg ev res t).1 hnone
      simp [runEvents, habs.2]
      omega

theorem connectionUpdate_entry (st : BotState) (c : Nat) (p : String)
    (reg : Bool) (ev : ConnEvent) (res : Except String String) (now : Nat)
    (cp : Session) (hcp : storeGet st.store c = some cp)
    (hnc : cp.isCancelling = false) :
    connectionUpdate st c p reg ev res now =
      match ev.connection with
      | some ConnStatus.connecting =>
        qrTail st c cp reg ev.qr now [Msg.connectingMsg]
      | some ConnStatus.opened => openBranch st c cp p reg res now
      | some ConnStatus.closed => closeBranch st c cp p ev.discErr
      | none => qrTail st c cp reg ev.qr now [] := by
  unfold connectionUpdate
  rw [hcp]
  simp [hnc]

theorem closeBranch_effs (st : BotState) (c : Nat) (cp : Session) (p : String)
    (e : Option DErr) : (closeBranch st c cp p e).2.2 = [] := by
  unfold closeBranch
  split
  · rfl
  · split <;> rfl

theorem openBranch_publish_iff (st : BotState) (c : Nat) (cp : Session)
    (p : String) (reg : Bool) (res : Except String String) (now : Nat) :
    (Eff.publishCreds ∈ (openBranch st c cp p reg res now).2.2)
      ↔ (reg = true ∧ cp.lastPairingInfoSent = none
         ∧ fsExists st.files (p ++ "/creds.json") = true) := by
  unfold openBranch
  cases hreg : reg
  · rcases hlast : cp.lastPairingInfoSent with _ | r
    · simp [hlast]
    · simp only [hlast, Bool.false_and, Bool.false_eq_true, if_false,
        Option.isSome_some, Bool.not_false, Bool.true_and, if_true]
      split <;> simp
  · rcases hlast : cp.lastPairingInfoSent with _ | r
    · cases hfs : fsExists st.files (p ++ "/creds.json")
      · simp [hlast, hfs]
      · rcases res with e | url
        · simp [hlast, hfs]
        · simp [hlast, hfs, notifIsSessionId]
    · simp only [hlast, Option.isNone_some, Bool.and_false,
        Bool.false_eq_true, if_false, Option.isSome_some, Bool.not_true,
        Bool.false_and, if_true]
      split <;> simp [hlast]

/-- C1: `startPairing(chatId, target, method)` invoked as a new attempt
(`isReconnect = false`) fails with the AlreadyActive message when the store
already holds a non-cancelling session for the chat — the state is unchanged,
no connection is opened, no session or credential path is created — and when
the store holds no session for the chat the call registers a fresh session
(path `./temp_sessions/<uuid>`, not cancelling, no notification recorded). -/
theorem startPairing_exclusive (st : BotState) (c : Nat) (num : Option String)
    (method : Method) (freshId : String) (sockOk registered : Bool)
    (codeResult : Except String (Option String)) (now : Nat) :
    (∀ cp, storeGet st.store c = some cp → cp.isCancelling = false →
      startPairing st c num method false freshId sockOk registered codeResult
        now = (st, [Msg.alreadyActive], []))
    ∧ (storeGet st.store c = none →
      startPairing st c num method false freshId true true codeResult now
        = (⟨spRegister st.store c false ("./temp_sessions/" ++ freshId) method,
            removeFileFS st.files ("./temp_sessions/" ++ freshId)⟩, [],
           [Eff.connOpen])
      ∧ storeGet (spRegister st.store c false ("./temp_sessions/" ++ freshId)
            method) c
        = some ⟨"./temp_sessions/" ++ freshId, false, method, none⟩) := by
  constructor
  · intro cp hcp _
    unfold startPairing
    rw [hcp]
    simp
  · intro h
    constructor
    · unfold startPairing
      rw [h]
      simp [spSelectPath, h, spRegister, storeGet_storeSet_self]
    · simp [spRegister, storeGet_storeSet_self]

/-- Witness for C1 at concrete inputs: with a non-cancelling session stored
for chat 1 the call returns only the AlreadyActive message and leaves the
state untouched; on an empty store the registration step creates the fresh
session. -/
theorem startPairing_exclusive_instance :
    (startPairing stA 1 none Method.qr false "f" true false (Except.ok none) 0
      = (stA, [Msg.alreadyActive], []))
    ∧ storeGet (spRegister stEmptyB.store 1 false ("./temp_sessions/" ++ "f")
        Method.qr) 1
      = some ⟨"./temp_sessions/" ++ "f", false, Method.qr, none⟩ :=
  ⟨(startPairing_exclusive stA 1 none Method.qr "f" true false
      (Except.ok none) 0).1 sessA rfl rfl,
   ((startPairing_exclusive stEmptyB 1 none Method.qr "f" true true
      (Except.ok none) 0).2 rfl).2⟩

/-- C3 (amended): once a session's `isCancelling` flag is true, the
`connection.update` handler ignores every event — including the close event:
the early return at lines 225-232 fires before the close branch, so no
notification is sent and neither the store nor the filesystem changes at any
event; the cancelled notification, credential-path deletion and store-entry
removal are performed by the `/cancel` handler itself, not at the close
event. -/
theorem cancelling_ignores_all_events (st : BotState) (c : Nat) (p : String)
    (registered : Bool) (ev : ConnEvent) (uploadRes : Except String String)
    (now : Nat) (cp : Session) (hcp : storeGet st.store c = some cp)
    (hcanc : cp.isCancelling = true) :
    connectionUpdate st c p registered ev uploadRes now = (st, [], []) := by
  unfold connectionUpdate
  rw [hcp]
  simp [hcanc]

/-- Counterexample to C3 as stated: for a cancelling session, a close event
(logged-out error, which the claim says must finalize the session as
CANCELLED) produces no notification, leaves the session in the store, and
leaves the credential path on disk. -/
theorem cancelling_close_ignored_cex :
    (connectionUpdate stC3 1 "./temp_sessions/x" false evClose401
        (Except.ok "") 0).2.1 = []
    ∧ storeGet (connectionUpdate stC3 1 "./temp_sessions/x" false evClose401
        (Except.ok "") 0).1.store 1 = some sessC3
    ∧ fsExists (connectionUpdate stC3 1 "./temp_sessions/x" false evClose401
        (Except.ok "") 0).1.files "./temp_sessions/x" = true := by
  refine ⟨rfl, rfl, rfl⟩

/-- Witness for C3 (amended) at a concrete input: an open event on a
cancelling session is a no-op. -/
theorem cancelling_ignores_all_events_instance :
    connectionUpdate stC3 1 "./temp_sessions/x" true evOpen (Except.ok "u") 5
      = (stC3, [], []) :=
  cancelling_ignores_all_events stC3 1 "./temp_sessions/x" true evOpen
    (Except.ok "u") 5 sessC3 rfl rfl

/-- C9: `Cancel(chatId)`: with no stored session it only reports
NoActiveSession and changes nothing; with a stored session it sets
`isCancelling`, and regardless of whether the best-effort logout/close threw
(such errors are swallowed as warnings) it removes the credential path and
the store entry and reports the attempt plus the final success message. -/
theorem cancel_command_contract (st : BotState) (c : Nat) :
    (storeGet st.store c = none →
      ∀ b, cancelCmd st c b = (st, [Msg.noActiveSession], []))
    ∧ (∀ ap b, storeGet st.store c = some ap →
        storeGet (cancelCmd st c b).1.store c = none
        ∧ fsExists (cancelCmd st c b).1.files ap.sessionPath = false
        ∧ (cancelCmd st c b).2.1 = [Msg.cancelAttempting, Msg.cancelSuccess]
        ∧ (cancelCmd st c true).1 = (cancelCmd st c false).1
        ∧ (cancelCmd st c true).2.1 = (cancelCmd st c false).2.1
        ∧ storeGet (cancelMark st c ap).store c
            = some { ap with isCancelling := true }) := by
  constructor
  · intro h b
    unfold cancelCmd
    rw [h]
  · intro ap b h
    unfold cancelCmd cancelMark
    rw [h]
    refine ⟨storeGet_storeDel_self _ _, fsExists_removeFileFS_self _ _, rfl,
      rfl, rfl, storeGet_storeSet_self _ _ _⟩

/-- Witness for C9 at concrete inputs: cancelling chat 1 with a stored
session (even when the graceful logout throws) empties the store, deletes the
path, and reports attempt + success; cancelling an absent chat only reports
NoActiveSession. -/
theorem cancel_command_contract_instance :
    (storeGet (cancelCmd stA 1 true).1.store 1 = none
      ∧ fsExists (cancelCmd stA 1 true).1.files sessA.sessionPath = false
      ∧ (cancelCmd stA 1 true).2.1 = [Msg.cancelAttempting, Msg.cancelSuccess])
    ∧ cancelCmd stEmptyB 1 false = (stEmptyB, [Msg.noActiveSession], []) := by
  have h1 := (cancel_command_contract stA 1).2 sessA true rfl
  have h2 := (cancel_command_contract stEmptyB 1).1 rfl false
  exact ⟨⟨h1.1, h1.2.1, h1.2.2.1⟩, h2⟩

/-- C10: `startPairing` invoked with `isReconnect = true` while the store
holds no session for the chat does not fail: no AlreadyActive message is
possible on any path, the path-selection step falls back to cleaning and
using the fresh random path, the registration step stores a brand-new session
with `isCancelling = false` and no recorded notification, and (with the
socket created and the adapter already registered) the call ends with exactly
that fresh session in the store. -/
theorem reconnect_fallback_fresh_start (st : BotState) (c : Nat)
    (num : Option String) (method : Method) (freshId : String)
    (sockOk registered : Bool) (codeResult : Except String (Option String))
    (now : Nat) (h : storeGet st.store c = none) :
    Msg.alreadyActive ∉
      (startPairing st c num method true freshId sockOk registered codeResult
        now).2.1
    ∧ spSelectPath st c true ("./temp_sessions/" ++ freshId)
        = (removeFileFS st.files ("./temp_sessions/" ++ freshId),
           "./temp_sessions/" ++ freshId)
    ∧ storeGet (spRegister st.store c true ("./temp_sessions/" ++ freshId)
          method) c
        = some ⟨"./temp_sessions/" ++ freshId, false, method, none⟩
    ∧ startPairing st c num method true freshId true true codeResult now
        = (⟨spRegister st.store c true ("./temp_sessions/" ++ freshId) method,
            removeFileFS st.files ("./temp_sessions/" ++ freshId)⟩, [],
           [Eff.connOpen]) := by
  refine ⟨?_, ?_, ?_, ?_⟩
  · unfold startPairing
    simp only [Bool.not_true, Bool.and_false, Bool.false_eq_true, if_false]
    simp only [spSelectPath, h, spRegister, storeGet_storeSet_self]
    cases sockOk
    · simp
    · cases registered
      · simp only [Bool.not_false, if_true, Bool.not_true, Bool.false_eq_true,
          if_false]
        cases method
        · rcases num with _ | s
          · simp [storeGet_storeSet_self]
          · by_cases ht : (jsTrim s != "") = true
            · simp only [storeGet_storeSet_self, ht, if_true]
              rcases codeResult with e | o
              · simp
              · rcases o with _ | code <;> simp
            · simp only [storeGet_storeSet_self, ht, if_false]
              simp
        · simp [storeGet_storeSet_self]
      · simp [storeGet_storeSet_self]
  · simp [spSelectPath, h]
  · simp [spRegister, h, storeGet_storeSet_self]
  · unfold startPairing
    simp only [Bool.not_true, Bool.and_false, Bool.false_eq_true, if_false]
    simp [spSelectPath, h, spRegister, storeGet_storeSet_self]

/-- Witness for C10 at a concrete input: a reconnect call for a chat with no
stored session registers the fresh session and does not fail. -/
theorem reconnect_fallback_fresh_start_instance :
    Msg.alreadyActive ∉
      (startPairing stEmptyB 1 none Method.qr true "g" true false
        (Except.ok none) 0).2.1
    ∧ storeGet (spRegister stEmptyB.store 1 true ("./temp_sessions/" ++ "g")
        Method.qr) 1
      = some ⟨"./temp_sessions/" ++ "g", false, Method.qr, none⟩ :=
  ⟨(reconnect_fallback_fresh_start stEmptyB 1 none Method.qr "g" true false
      (Except.ok none) 0 rfl).1,
   (reconnect_fallback_fresh_start stEmptyB 1 none Method.qr "g" true false
      (Except.ok none) 0 rfl).2.2.1⟩

/-- C5: for a qr-method session with credentials not yet registered, a qr
artifact event sends the artifact and records it when nothing was recorded
yet; re-delivering the identical artifact within 30 seconds of the recorded
notification is a complete no-op (exactly one notification overall);
re-delivering it more than 30 seconds after the recorded notification sends
it again; and a different artifact is always sent and recorded. -/
theorem qr_artifact_debounce (st : BotState) (c : Nat) (p : String)
    (q : String) (t now : Nat) (uploadRes : Except String String)
    (cp : Session) (hcp : storeGet st.store c = some cp)
    (hm : cp.method = Method.qr) (hnc : cp.isCancelling = false) :
    (cp.lastPairingInfoSent = none →
      connectionUpdate st c p false ⟨none, none, some q⟩ uploadRes now
        = (⟨storeSet st.store c
              { cp with lastPairingInfoSent := some ⟨NotifKind.qr, q, now⟩ },
            st.files⟩,
           [Msg.qrPrompt, Msg.qrPhoto q, Msg.qrFooter], []))
    ∧ (cp.lastPairingInfoSent = some ⟨NotifKind.qr, q, t⟩ → now - t ≤ 30000 →
      connectionUpdate st c p false ⟨none, none, some q⟩ uploadRes now
        = (st, [], []))
    ∧ (cp.lastPairingInfoSent = some ⟨NotifKind.qr, q, t⟩ → now - t > 30000 →
      connectionUpdate st c p false ⟨none, none, some q⟩ uploadRes now
        = (⟨storeSet st.store c
              { cp with lastPairingInfoSent := some ⟨NotifKind.qr, q, now⟩ },
            st.files⟩,
           [Msg.qrPrompt, Msg.qrPhoto q, Msg.qrFooter], []))
    ∧ (∀ q2, cp.lastPairingInfoSent = some ⟨NotifKind.qr, q2, t⟩ → q2 ≠ q →
      connectionUpdate st c p false ⟨none, none, some q⟩ uploadRes now
        = (⟨storeSet st.store c
              { cp with lastPairingInfoSent := some ⟨NotifKind.qr, q, now⟩ },
            st.files⟩,
           [Msg.qrPrompt, Msg.qrPhoto q, Msg.qrFooter], [])) := by
  rw [connectionUpdate_entry st c p false ⟨none, none, some q⟩ uploadRes now
    cp hcp hnc]
  refine ⟨?_, ?_, ?_, ?_⟩
  · intro hlast
    simp [qrTail, hm, qrDebounceSend, hlast]
  · intro hlast hle
    have hnl : ¬(30000 < now - t) := by omega
    simp [qrTail, hm, qrDebounceSend, hlast, hnl]
  · intro hlast hgt
    simp [qrTail, hm, qrDebounceSend, hlast, hgt]
  · intro q2 hlast hne
    simp [qrTail, hm, qrDebounceSend, hlast, bne_iff_ne, hne]

/-- Witness for C5 at concrete inputs: from a fresh qr session the first
artifact is sent and recorded; re-delivering the identical artifact 10
seconds later is a no-op; re-delivering it 31 seconds later sends it again. -/
theorem qr_artifact_debounce_instance :
    (connectionUpdate stW 1 "./temp_sessions/w" false ⟨none, none, some "qr-one"⟩
        (Except.ok "") 0).2.1 = [Msg.qrPrompt, Msg.qrPhoto "qr-one", Msg.qrFooter]
    ∧ connectionUpdate stQ 1 "./temp_sessions/q" false
        ⟨none, none, some "qr-one"⟩ (Except.ok "") 10000 = (stQ, [], [])
    ∧ (connectionUpdate stQ 1 "./temp_sessions/q" false
        ⟨none, none, some "qr-one"⟩ (Except.ok "") 31000).2.1
      = [Msg.qrPrompt, Msg.qrPhoto "qr-one", Msg.qrFooter] := by
  refine ⟨?_, ?_, ?_⟩
  · rw [(qr_artifact_debounce stW 1 "./temp_sessions/w" "qr-one" 0 0
      (Except.ok "") sessW rfl rfl rfl).1 rfl]
  · exact (qr_artifact_debounce stQ 1 "./temp_sessions/q" "qr-one" 0 10000
      (Except.ok "") sessQ rfl rfl rfl).2.1 rfl (by omega)
  · rw [(qr_artifact_debounce stQ 1 "./temp_sessions/q" "qr-one" 0 31000
      (Except.ok "") sessQ rfl rfl rfl).2.2.1 rfl (by omega)]

/-- C6: on a close event for a non-cancelling session whose error value, when
present, is a well-formed error object (a real Boom error has enumerable own
properties, so `Object.keys` is non-empty), the source classification
`isPermanentDisconnect` agrees exactly with the spec's wording (permanent iff
logged out, bad session, or status 401); a permanent classification sends the
failure notification, deletes the credential path and removes the store
entry, while a transient one sends the retry notification and leaves state
untouched. -/
theorem close_disconnect_classification (st : BotState) (c : Nat)
    (cp : Session) (p : String) (reg : Bool) (e : Option DErr)
    (uploadRes : Except String String) (now : Nat)
    (hcp : storeGet st.store c = some cp) (hnc : cp.isCancelling = false)
    (hwf : ∀ d, e = some d → d.isEmptyObj = false) :
    isPermanentDisconnect e = specCloseIsPermanent e
    ∧ (isPermanentDisconnect e = true →
        connectionUpdate st c p reg ⟨some ConnStatus.closed, e, none⟩
          uploadRes now
        = (⟨storeDel st.store c, removeFileFS st.files p⟩,
           [Msg.permanentClosed], []))
    ∧ (isPermanentDisconnect e = false →
        connectionUpdate st c p reg ⟨some ConnStatus.closed, e, none⟩
          uploadRes now
        = (st, [Msg.transientClosed], [])) := by
  refine ⟨?_, ?_, ?_⟩
  · rcases e with _ | d
    · decide
    · have hd := hwf d rfl
      simp [isPermanentDisconnect, specCloseIsPermanent, boomStatus,
        discErrIsEmpty, hd]
  · intro hperm
    rw [connectionUpdate_entry st c p reg ⟨some ConnStatus.closed, e, none⟩
      uploadRes now cp hcp hnc]
    simp [closeBranch, hnc, hperm]
  · intro hperm
    rw [connectionUpdate_entry st c p reg ⟨some ConnStatus.closed, e, none⟩
      uploadRes now cp hcp hnc]
    simp [closeBranch, hnc, hperm]

/-- Witness for C6 at concrete inputs: a logged-out close (Boom status 401,
well-formed error) is classified permanent and cleans up; an absent error
(Boom default 500 with empty keys) is classified transient and leaves the
session and its path in place. -/
theorem close_disconnect_classification_instance :
    isPermanentDisconnect (some ⟨401, false⟩) = specCloseIsPermanent (some ⟨401, false⟩)
    ∧ connectionUpdate stA 1 "./temp_sessions/a" false evClose401
        (Except.ok "") 0
      = (⟨storeDel stA.store 1, removeFileFS stA.files "./temp_sessions/a"⟩,
         [Msg.permanentClosed], [])
    ∧ connectionUpdate stA 1 "./temp_sessions/a" false
        ⟨some ConnStatus.closed, none, none⟩ (Except.ok "") 0
      = (stA, [Msg.transientClosed], []) := by
  have h1 := close_disconnect_classification stA 1 sessA "./temp_sessions/a"
    false (some ⟨401, false⟩) (Except.ok "") 0 rfl rfl
    (fun d hd => by cases hd; rfl)
  have h2 := close_disconnect_classification stA 1 sessA "./temp_sessions/a"
    false none (Except.ok "") 0 rfl rfl (fun d hd => by cases hd)
  exact ⟨h1.1, h1.2.1 (by decide), h2.2.2 (by decide)⟩

/-- C7: when the upload of the credentials succeeds with a storage reference
equal to the Mega link marker followed by path component `abc123`, the
session identifier sent to the user is the fixed literal prefix `King~`
concatenated with `abc123`, and afterwards the session is removed from the
store.  (The spec writes the reference as an abstract storage URL; the
source's concrete marker is `https://mega.nz/file/`.) -/
theorem session_identifier_derivation (st : BotState) (c : Nat) (p : String)
    (now : Nat) (cp : Session) (hcp : storeGet st.store c = some cp)
    (hnc : cp.isCancelling = false) (hlast : cp.lastPairingInfoSent = none)
    (hcreds : fsExists st.files (p ++ "/creds.json") = true) :
    megaSid (megaLinkBase ++ "abc123") = "King~" ++ "abc123"
    ∧ (connectionUpdate st c p true ⟨some ConnStatus.opened, none, none⟩
        (Except.ok (megaLinkBase ++ "abc123")) now).2.1
      = [Msg.connected, Msg.sessionIdMsg ("King~" ++ "abc123")]
    ∧ storeGet (connectionUpdate st c p true ⟨some ConnStatus.opened, none, none⟩
        (Except.ok (megaLinkBase ++ "abc123")) now).1.store c = none := by
  have hsid : megaSid (megaLinkBase ++ "abc123") = "King~" ++ "abc123" := by
    decide
  rw [connectionUpdate_entry st c p true ⟨some ConnStatus.opened, none, none⟩
    (Except.ok (megaLinkBase ++ "abc123")) now cp hcp hnc]
  refine ⟨hsid, ?_, ?_⟩
  · simp [openBranch, hlast, hcreds, notifIsSessionId, hsid]
  · simp [openBranch, hlast, hcreds, notifIsSessionId, storeGet_storeDel_self]

/-- Witness for C7 at a concrete input: the fresh qr session `stW` receives
the success reference and gets identifier `King~abc123`, and the store entry
is gone afterwards. -/
theorem session_identifier_derivation_instance :
    (connectionUpdate stW 1 "./temp_sessions/w"
        true ⟨some ConnStatus.opened, none, none⟩
        (Except.ok (megaLinkBase ++ "abc123")) 0).2.1
      = [Msg.connected, Msg.sessionIdMsg ("King~" ++ "abc123")]
    ∧ storeGet (connectionUpdate stW 1 "./temp_sessions/w"
        true ⟨some ConnStatus.opened, none, none⟩
        (Except.ok (megaLinkBase ++ "abc123")) 0).1.store 1 = none := by
  have h := session_identifier_derivation stW 1 "./temp_sessions/w" 0 sessW
    rfl rfl rfl (by decide)
  exact ⟨h.2.1, h.2.2⟩

/-- Counterexample to C2 as stated: an `open` event with credentials
registered while a prior non-success notification (a pairing-code record) is
stored does NOT trigger the upload-and-finalize sub-flow — no publish call is
made, only the connected notification is sent, and the session stays in the
store.  The claim says such an event still triggers the sub-flow. -/
theorem upload_trigger_nonsuccess_cex :
    Eff.publishCreds ∉
      (connectionUpdate stU 1 "./temp_sessions/u" true evOpen
        (Except.ok (megaLinkBase ++ "abc123")) 5000).2.2
    ∧ (connectionUpdate stU 1 "./temp_sessions/u" true evOpen
        (Except.ok (megaLinkBase ++ "abc123")) 5000).2.1 = [Msg.connected]
    ∧ storeGet (connectionUpdate stU 1 "./temp_sessions/u" true evOpen
        (Except.ok (megaLinkBase ++ "abc123")) 5000).1.store 1 = some sessU := by
  refine ⟨by decide, rfl, rfl⟩

/-- C2 (amended): the upload-and-finalize sub-flow (the `uploadCredsToMega`
call) runs exactly when the event is an `open` with credentials registered,
NO notification of any kind recorded (`!currentPairing.lastPairingInfoSent`
— not merely no success notification), and the credentials file present;
whenever it runs, the store entry is removed, and hence over any sequence of
connection events it runs at most once. -/
theorem upload_trigger_guard :
    (∀ st c p reg ev res now cp, storeGet st.store c = some cp →
      cp.isCancelling = false →
      ((Eff.publishCreds ∈ (connectionUpdate st c p reg ev res now).2.2)
        ↔ (ev.connection = some ConnStatus.opened ∧ reg = true
           ∧ cp.lastPairingInfoSent = none
           ∧ fsExists st.files (p ++ "/creds.json") = true)))
    ∧ (∀ st c p reg ev res now,
        Eff.publishCreds ∈ (connectionUpdate st c p reg ev res now).2.2 →
        storeGet (connectionUpdate st c p reg ev res now).1.store c = none)
    ∧ (∀ c p st evs, (runEvents c p st evs).2 ≤ 1) := by
  refine ⟨?_, ?_, ?_⟩
  · intro st c p reg ev res now cp hcp hnc
    rw [connectionUpdate_entry st c p reg ev res now cp hcp hnc]
    obtain ⟨conn, derr, qrp⟩ := ev
    rcases conn with _ | s
    · simp [qrTail_effs]
    · cases s
      · simp [qrTail_effs]
      · simp [openBranch_publish_iff]
      · simp [closeBranch_effs]
  · intro st c p reg ev res now hmem
    exact (connectionUpdate_publish_step st c p reg ev res now).2
      (countPublish_pos_of_mem hmem)
  · intro c p st evs
    exact runEvents_publish_le_one c p evs st

/-- Witness for C2 (amended) at a concrete input: an open event with
registered credentials, no recorded notification, and the credentials file
present does publish, and afterwards the store entry is gone. -/
theorem upload_trigger_guard_instance :
    Eff.publishCreds ∈
      (connectionUpdate stW 1 "./temp_sessions/w" true evOpen
        (Except.ok (megaLinkBase ++ "abc123")) 0).2.2
    ∧ storeGet (connectionUpdate stW 1 "./temp_sessions/w" true evOpen
        (Except.ok (megaLinkBase ++ "abc123")) 0).1.store 1 = none := by
  have hmem := (upload_trigger_guard.1 stW 1 "./temp_sessions/w" true evOpen
    (Except.ok (megaLinkBase ++ "abc123")) 0 sessW rfl rfl).2
    ⟨rfl, rfl, rfl, by decide⟩
  exact ⟨hmem, upload_trigger_guard.2.1 stW 1 "./temp_sessions/w" true evOpen
    (Except.ok (megaLinkBase ++ "abc123")) 0 hmem⟩

/-- Counterexample to C4 as stated: `startPairing` with method `code` and an
empty target still creates the connection handle (the `makeWASocket` call
happens before the target check), contradicting "fails with InvalidTarget
before any connection is opened: no connection handle is created". -/
theorem code_empty_target_cex :
    Eff.connOpen ∈ (startPairing stEmptyB 1 (some "") Method.code false "f"
      true false (Except.ok none) 0).2.2 := by
  decide

/-- C4 (amended): with method `code` and an empty/blank target, the call
first opens the connection and registers the session, then sends the
missing-number error and tears everything down (store entry removed,
credential path deleted); a non-empty non-numeric target is not rejected at
all — its non-digit characters are stripped and a pairing code is requested
for the remainder (here the empty string). -/
theorem code_empty_target_behavior (st : BotState) (c : Nat)
    (freshId : String) (codeResult : Except String (Option String))
    (now : Nat) (h : storeGet st.store c = none) :
    Eff.connOpen ∈ (startPairing st c (some "") Method.code false freshId
      true false codeResult now).2.2
    ∧ Msg.numRequired ∈ (startPairing st c (some "") Method.code false freshId
      true false codeResult now).2.1
    ∧ storeGet (startPairing st c (some "") Method.code false freshId true
        false codeResult now).1.store c = none
    ∧ fsExists (startPairing st c (some "") Method.code false freshId true
        false codeResult now).1.files ("./temp_sessions/" ++ freshId) = false
    ∧ Eff.requestCode (stripNonDigits "abc")
        ∈ (startPairing st c (some "abc") Method.code false freshId true false
          codeResult now).2.2
    ∧ stripNonDigits "abc" = "" := by
  have ht : (jsTrim "" != "") = false := by decide
  have ht2 : (jsTrim "abc" != "") = true := by decide
  refine ⟨?_, ?_, ?_, ?_, ?_, by decide⟩
  · unfold startPairing
    simp [h, spSelectPath, spRegister, storeGet_storeSet_self, ht]
  · unfold startPairing
    simp [h, spSelectPath, spRegister, storeGet_storeSet_self, ht]
  · unfold startPairing
    simp [h, spSelectPath, spRegister, storeGet_storeSet_self, ht,
      storeGet_storeDel_self]
  · unfold startPairing
    simp [h, spSelectPath, spRegister, storeGet_storeSet_self, ht,
      fsExists_removeFileFS_self]
  · unfold startPairing
    simp only [h, Option.isSome_none, Bool.false_and, Bool.false_eq_true,
      if_false, spSelectPath, spRegister, storeGet_storeSet_self, ht2,
      Bool.not_true, Bool.not_false, if_true]
    rcases codeResult with e | o
    · simp
    · rcases o with _ | code <;> simp

/-- Witness for C4 (amended) at a concrete input: the empty-target code call
on an empty store opens the connection, reports the missing number, and
leaves no entry and no path. -/
theorem code_empty_target_behavior_instance :
    Eff.connOpen ∈ (startPairing stEmptyB 1 (some "") Method.code false "w1"
      true false (Except.ok none) 0).2.2
    ∧ storeGet (startPairing stEmptyB 1 (some "") Method.code false "w1" true
        false (Except.ok none) 0).1.store 1 = none := by
  have h := code_empty_target_behavior stEmptyB 1 "w1" (Except.ok none) 0 rfl
  exact ⟨h.1, h.2.2.1⟩

/-- C8: after every terminal transition — the open/registered upload flow
(success, publish failure, or missing credentials file), a permanent
disconnect, an explicit cancel, a failed pairing-code request, and a setup
error (socket creation throwing) — the session's credential path no longer
exists and the store has no entry for the chat. -/
theorem terminal_transition_cleanup :
    (∀ st c p res now cp, storeGet st.store c = some cp →
      cp.isCancelling = false → cp.lastPairingInfoSent = none →
      p = cp.sessionPath →
      storeGet (connectionUpdate st c p true
          ⟨some ConnStatus.opened, none, none⟩ res now).1.store c = none
      ∧ fsExists (connectionUpdate st c p true
          ⟨some ConnStatus.opened, none, none⟩ res now).1.files
          cp.sessionPath = false)
    ∧ (∀ st c p reg e res now cp, storeGet st.store c = some cp →
      cp.isCancelling = false → p = cp.sessionPath →
      isPermanentDisconnect e = true →
      storeGet (connectionUpdate st c p reg
          ⟨some ConnStatus.closed, e, none⟩ res now).1.store c = none
      ∧ fsExists (connectionUpdate st c p reg
          ⟨some ConnStatus.closed, e, none⟩ res now).1.files
          cp.sessionPath = false)
    ∧ (∀ st c b ap, storeGet st.store c = some ap →
      storeGet (cancelCmd st c b).1.store c = none
      ∧ fsExists (cancelCmd st c b).1.files ap.sessionPath = false)
    ∧ (∀ st c s freshId now, storeGet st.store c = none →
      (jsTrim s != "") = true →
      storeGet (startPairing st c (some s) Method.code false freshId true
          false (Except.ok none) now).1.store c = none
      ∧ fsExists (startPairing st c (some s) Method.code false freshId true
          false (Except.ok none) now).1.files
          ("./temp_sessions/" ++ freshId) = false)
    ∧ (∀ st c num method freshId reg codeRes now, storeGet st.store c = none →
      storeGet (startPairing st c num method false freshId false reg codeRes
          now).1.store c = none
      ∧ fsExists (startPairing st c num method false freshId false reg codeRes
          now).1.files ("./temp_sessions/" ++ freshId) = false) := by
  refine ⟨?_, ?_, ?_, ?_, ?_⟩
  · intro st c p res now cp hcp hnc hlast hp
    subst hp
    rw [connectionUpdate_entry st c cp.sessionPath true
      ⟨some ConnStatus.opened, none, none⟩ res now cp hcp hnc]
    cases hfs : fsExists st.files (cp.sessionPath ++ "/creds.json")
    · constructor
      · simp [openBranch, hlast, hfs, storeGet_storeDel_self]
      · simp [openBranch, hlast, hfs, fsExists_removeFileFS_self]
    · rcases res with e | url
      · constructor
        · simp [openBranch, hlast, hfs, storeGet_storeDel_self]
        · simp [openBranch, hlast, hfs, fsExists_removeFileFS_self]
      · constructor
        · simp [openBranch, hlast, hfs, notifIsSessionId,
            storeGet_storeDel_self]
        · simp [openBranch, hlast, hfs, notifIsSessionId,
            fsExists_removeFileFS_self]
  · intro st c p reg e res now cp hcp hnc hp hperm
    subst hp
    rw [connectionUpdate_entry st c cp.sessionPath reg
      ⟨some ConnStatus.closed, e, none⟩ res now cp hcp hnc]
    constructor
    · simp [closeBranch, hnc, hperm, storeGet_storeDel_self]
    · simp [closeBranch, hnc, hperm, fsExists_removeFileFS_self]
  · intro st c b ap h
    unfold cancelCmd cancelMark
    rw [h]
    exact ⟨storeGet_storeDel_self _ _, fsExists_removeFileFS_self _ _⟩
  · intro st c s freshId now h ht
    constructor
    · unfold startPairing
      simp [h, spSelectPath, spRegister, storeGet_storeSet_self, ht,
        storeGet_storeDel_self]
    · unfold startPairing
      simp [h, spSelectPath, spRegister, storeGet_storeSet_self, ht,
        fsExists_removeFileFS_self]
  · intro st c num method freshId reg codeRes now h
    constructor
    · unfold startPairing
      simp [h, spSelectPath, storeGet_storeDel_self]
    · unfold startPairing
      simp [h, spSelectPath, fsExists_removeFileFS_self]

/-- Witness for C8 at concrete inputs: cancelling chat 1 with a stored
session clears entry and path; an open/registered event whose publish fails
also clears the entry. -/
theorem terminal_transition_cleanup_instance :
    (storeGet (cancelCmd stA 1 false).1.store 1 = none
      ∧ fsExists (cancelCmd stA 1 false).1.files sessA.sessionPath = false)
    ∧ storeGet (connectionUpdate stW 1 "./temp_sessions/w" true
        ⟨some ConnStatus.opened, none, none⟩ (Except.error "mega down")
        0).1.store 1 = none := by
  refine ⟨terminal_transition_cleanup.2.2.1 stA 1 false sessA rfl, ?_⟩
  exact (terminal_transition_cleanup.1 stW 1 "./temp_sessions/w"
    (Except.error "mega down") 0 sessW rfl rfl rfl rfl).1

end Xlegacy
